import Mathlib

/-!
Verification of `src/backend/count_people.py`, a command-line script that
counts people detected in an image by a pretrained object detector and
emits one JSON object (count and error fields) on standard output.

The script is embedded shallowly:
* a detection box is a record of a class id and a confidence score
  (the Python float is modelled as a rational number);
* `count_people` is the double loop of the source, translated verbatim;
* `main` is modelled as `main_run`, a pure function from the argument
  vector and a `World` (the file system, the base64 decoder, the fresh
  temporary-file name and the detector, each an oracle that either
  succeeds or raises an exception carrying a message) to the list of
  observable events the process performs, in order: file reads, creation
  and deletion of the temporary file, detector invocations, printed JSON
  objects and the final exit status.
-/

/-- One detection box reported by the detector: a class identifier
(`int(box.cls[0])` in the source) and a confidence score
(`float(box.conf[0])`, modelled as a rational). -/
structure BoxRec where
  cls : Int
  conf : ℚ
deriving Repr, DecidableEq

/-- One result object returned by the model call: its list of boxes. -/
structure DetResult where
  boxes : List BoxRec
deriving Repr, DecidableEq

/-- `count_people`, translated from the source: iterate over results and
their boxes, and count a box when its class is 0 (the COCO person class)
and its confidence is strictly above 0.5. -/
def count_people (results : List DetResult) : Nat :=
  results.foldl (fun acc result =>
    result.boxes.foldl (fun a box =>
      if box.cls == 0 then
        (if box.conf > 1/2 then a + 1 else a)
      else a) acc) 0

/-- The predicate the spec describes: the box is of the person class and
its confidence is strictly greater than the 0.5 threshold. -/
def countedBox (b : BoxRec) : Bool :=
  b.cls == 0 && decide (b.conf > 1/2)

/-- All boxes of a detection sequence, in order. -/
def allBoxes : List DetResult → List BoxRec
  | [] => []
  | r :: rs => r.boxes ++ allBoxes rs

theorem foldl_boxes_eq (boxes : List BoxRec) (acc : Nat) :
    boxes.foldl (fun a box =>
      if box.cls == 0 then
        (if box.conf > 1/2 then a + 1 else a)
      else a) acc = acc + boxes.countP countedBox := by
  induction boxes generalizing acc with
  | nil => simp
  | cons b bs ih =>
    rw [List.foldl_cons, ih, List.countP_cons]
    by_cases h1 : (b.cls == 0) = true
    · by_cases h2 : b.conf > 1/2
      · have hc : countedBox b = true := by
          unfold countedBox
          rw [h1, decide_eq_true h2]
          rfl
        rw [if_pos h1, if_pos h2, hc]
        simp
        omega
      · have hc : countedBox b = false := by
          unfold countedBox
          rw [h1, decide_eq_false h2]
          rfl
        rw [if_pos h1, if_neg h2, hc]
        simp
    · have hc : countedBox b = false := by
        unfold countedBox
        simp [h1]
      rw [if_neg h1, hc]
      simp

theorem count_people_eq_countP (results : List DetResult) :
    count_people results = (allBoxes results).countP countedBox := by
  unfold count_people
  suffices h : ∀ acc : Nat, results.foldl (fun acc result =>
      result.boxes.foldl (fun a box =>
        if box.cls == 0 then
          (if box.conf > 1/2 then a + 1 else a)
        else a) acc) acc = acc + (allBoxes results).countP countedBox by
    simpa using h 0
  induction results with
  | nil => intro acc; simp [allBoxes]
  | cons r rs ih =>
    intro acc
    rw [List.foldl_cons, foldl_boxes_eq, ih]
    simp [allBoxes, List.countP_append]
    omega

/-- The JSON object the script prints: it always carries both a `count`
field and an `error` field (`error` is `none` for JSON null). -/
structure JsonOut where
  count : Nat
  error : Option String
deriving Repr, DecidableEq

/-- An observable step of one process run. -/
inductive Event where
  | readFile (path : String)
  | createTemp (path : String) (contents : List Nat)
  | detect (path : String)
  | deleteTemp (path : String)
  | printJson (j : JsonOut)
  | exitWith (code : Nat)
deriving Repr, DecidableEq

/-- The environment a run interacts with.  Each operation that can raise
an exception in Python is an oracle returning `Except String`, the
`String` being the exception message `str(e)`. -/
structure World where
  /-- `open(path).read()`: the text contents of a file, or an I/O error. -/
  readFile : String → Except String String
  /-- `base64.b64decode`: the decoded bytes, or a `binascii.Error`. -/
  b64decode : String → Except String (List Nat)
  /-- The stem of the fresh name `tempfile.NamedTemporaryFile` picks;
  the file is created with the suffix `.png`. -/
  tmpStem : String
  /-- `YOLO('yolov8n.pt')` applied to an image path: the detection
  results, or a model-load or inference error. -/
  detect : String → Except String (List DetResult)

/-- The full name of the temporary file: the fresh stem plus the image
extension `.png` passed as `suffix` in the source. -/
def tmpName (w : World) : String := w.tmpStem ++ ".png"

/-- Python's `str.endswith(post)`: whether the characters of `post` are
a suffix of the characters of `s`. -/
def pyEndsWith (s post : String) : Bool :=
  post.data.isSuffixOf s.data

theorem pyEndsWith_append (s t : String) : pyEndsWith (s ++ t) t = true := by
  unfold pyEndsWith
  rw [String.data_append]
  simp

/-- The `main` function of the script, as the ordered list of observable
events of one run.  `argv` is `sys.argv`, so `argv[0]` is the program
name and the input path is `argv[1]`.  Mirrors the source line by line:
the missing-argument check, the `.b64` suffix test, read, decode into a
fresh temporary file (the file is created by entering the
`NamedTemporaryFile` block before the decode runs, so a decode failure
leaks an empty temporary file), inference, cleanup, JSON output and exit
status; every exception is caught by the single `try`/`except` and
reported as `{error: str(e), count: 0}` with exit status 1. -/
def main_run (argv : List String) (w : World) : List Event :=
  match argv with
  | _prog :: input_path :: _rest =>
    if pyEndsWith input_path ".b64" then
      match w.readFile input_path with
      | .error e => [.readFile input_path, .printJson ⟨0, some e⟩, .exitWith 1]
      | .ok b64_data =>
        match w.b64decode b64_data with
        | .error e =>
            [.readFile input_path, .createTemp (tmpName w) [],
             .printJson ⟨0, some e⟩, .exitWith 1]
        | .ok bytes =>
          match w.detect (tmpName w) with
          | .error e =>
              [.readFile input_path, .createTemp (tmpName w) bytes,
               .detect (tmpName w), .printJson ⟨0, some e⟩, .exitWith 1]
          | .ok results =>
              [.readFile input_path, .createTemp (tmpName w) bytes,
               .detect (tmpName w), .deleteTemp (tmpName w),
               .printJson ⟨count_people results, none⟩, .exitWith 0]
    else
      match w.detect input_path with
      | .error e => [.detect input_path, .printJson ⟨0, some e⟩, .exitWith 1]
      | .ok results =>
          [.detect input_path, .printJson ⟨count_people results, none⟩,
           .exitWith 0]
  | _ => [.printJson ⟨0, some "No image path provided"⟩, .exitWith 1]

/-- Whether an event is a JSON object printed to standard output. -/
def isPrintJson : Event → Bool
  | .printJson _ => true
  | _ => false

/-- Whether an event creates a temporary file. -/
def isCreateTemp : Event → Bool
  | .createTemp _ _ => true
  | _ => false

/-- The exit status of a run: the code of its last `exitWith` event. -/
def exitStatus (t : List Event) : Option Nat :=
  (t.filterMap fun ev => match ev with
    | .exitWith c => some c
    | _ => none).getLast?

/-- A small concrete environment used to instantiate the theorems:
one readable base64 file, one decodable payload, one temporary name and
a detector that knows two images. -/
def demoWorld : World where
  readFile := fun p =>
    if p = "img.b64" then .ok "QUJD" else .error ("No such file: " ++ p)
  b64decode := fun s =>
    if s = "QUJD" then .ok [65, 66, 67] else .error "Invalid base64-encoded string"
  tmpStem := "tmp123"
  detect := fun p =>
    if p = "tmp123.png" then
      .ok [⟨[⟨0, 9/10⟩, ⟨0, 1/2⟩, ⟨2, 3/4⟩]⟩]
    else if p = "photo.jpg" then
      .ok [⟨[⟨0, 3/5⟩]⟩, ⟨[⟨0, 4/5⟩, ⟨7, 1⟩]⟩]
    else
      .error ("cannot open image: " ++ p)

/-- Claim C1: for every detection sequence, the counter returns exactly
the number of detections whose class is the person class (COCO class 0)
and whose confidence is strictly greater than 0.5; a detection at
confidence exactly 0.5 is not counted, and a detection of a non-person
class is not counted regardless of its confidence.  The result is a
`Nat`, hence a non-negative integer. -/
theorem C1_counter_counts_persons_above_half (results : List DetResult) :
    count_people results = ((allBoxes results).filter countedBox).length
    ∧ (∀ b : BoxRec, b.conf = 1/2 → count_people [⟨[b]⟩] = 0)
    ∧ (∀ b : BoxRec, b.cls ≠ 0 → count_people [⟨[b]⟩] = 0) := by
  refine ⟨?_, ?_, ?_⟩
  · rw [count_people_eq_countP, List.countP_eq_length_filter]
  · intro b hb
    rw [count_people_eq_countP]
    simp [allBoxes, countedBox, hb]
  · intro b hb
    rw [count_people_eq_countP]
    simp [allBoxes, countedBox, hb]

theorem C1_counter_counts_persons_above_half_witness :
    count_people [⟨[⟨0, 1/2⟩]⟩] = 0 ∧ count_people [⟨[⟨5, 9/10⟩]⟩] = 0 :=
  ⟨(C1_counter_counts_persons_above_half []).2.1 ⟨0, 1/2⟩ rfl,
   (C1_counter_counts_persons_above_half []).2.2 ⟨5, 9/10⟩ (by decide)⟩

/-- Claim C7: the counter is a pure, order-independent function of the
detection sequence: any two detection sequences whose boxes are
permutations of each other yield the same count. -/
theorem C7_counter_permutation_invariant (r1 r2 : List DetResult)
    (h : (allBoxes r1).Perm (allBoxes r2)) :
    count_people r1 = count_people r2 := by
  rw [count_people_eq_countP, count_people_eq_countP]
  exact h.countP_eq countedBox

theorem C7_counter_permutation_invariant_witness :
    count_people [⟨[⟨0, 3/4⟩, ⟨1, 3/4⟩]⟩]
      = count_people [⟨[⟨1, 3/4⟩]⟩, ⟨[⟨0, 3/4⟩]⟩] :=
  C7_counter_permutation_invariant _ _ (by
    simp [allBoxes]
    exact List.Perm.swap _ _ _)

/-- Claim C2: invoked with no input argument (fewer than two entries in
`sys.argv`), the program prints the JSON object
`{"error": "No image path provided", "count": 0}` and exits with
status 1, performing no file read, inference or counting first. -/
theorem C2_no_argument (argv : List String) (w : World)
    (h : argv.length < 2) :
    main_run argv w
      = [.printJson ⟨0, some "No image path provided"⟩, .exitWith 1] := by
  match argv with
  | [] => rfl
  | [_a] => rfl
  | _a :: _b :: t =>
    rw [List.length_cons, List.length_cons] at h
    exact absurd h (by omega)

theorem C2_no_argument_witness :
    main_run ["count_people.py"] demoWorld
      = [.printJson ⟨0, some "No image path provided"⟩, .exitWith 1] :=
  C2_no_argument ["count_people.py"] demoWorld (by decide)

/-- Claim C9: with the detector fixed (part of the `World`), the program
is deterministic: two runs on the same argument vector produce the same
printed JSON objects and the same exit status. -/
theorem C9_deterministic (argv : List String) (w : World)
    (t1 t2 : List Event)
    (h1 : t1 = main_run argv w) (h2 : t2 = main_run argv w) :
    t1.filter isPrintJson = t2.filter isPrintJson
    ∧ exitStatus t1 = exitStatus t2 := by
  subst h1
  subst h2
  exact ⟨rfl, rfl⟩

theorem C9_deterministic_witness :
    (main_run ["p", "photo.jpg"] demoWorld).filter isPrintJson
        = (main_run ["p", "photo.jpg"] demoWorld).filter isPrintJson
    ∧ exitStatus (main_run ["p", "photo.jpg"] demoWorld)
        = exitStatus (main_run ["p", "photo.jpg"] demoWorld) :=
  C9_deterministic ["p", "photo.jpg"] demoWorld _ _ rfl rfl

/-- Claim C10: every command-line argument after the first is ignored;
the run depends only on `sys.argv[1]` (not even on the program name). -/
theorem C10_extra_arguments_ignored (prog1 prog2 input_path : String)
    (rest1 rest2 : List String) (w : World) :
    main_run (prog1 :: input_path :: rest1) w
      = main_run (prog2 :: input_path :: rest2) w := rfl

/-- Claim C3: every exception raised in the resolution, inference or
counting pipeline is caught by the single top-level handler: in each of
the four places an oracle can fail (file read, base64 decode, inference
on the decoded temporary file, inference on a direct path), the run
prints a JSON object whose error field is the exception message verbatim
and whose count is 0, and exits with status 1; `main_run` is total, so
no exception escapes. -/
theorem C3_exceptions_surface_verbatim (prog input_path : String)
    (rest : List String) (w : World) :
    (pyEndsWith input_path ".b64" = true →
      (∀ e, w.readFile input_path = .error e →
        main_run (prog :: input_path :: rest) w
          = [.readFile input_path, .printJson ⟨0, some e⟩, .exitWith 1])
      ∧ (∀ s e, w.readFile input_path = .ok s → w.b64decode s = .error e →
        main_run (prog :: input_path :: rest) w
          = [.readFile input_path, .createTemp (tmpName w) [],
             .printJson ⟨0, some e⟩, .exitWith 1])
      ∧ (∀ s bytes e, w.readFile input_path = .ok s →
          w.b64decode s = .ok bytes → w.detect (tmpName w) = .error e →
        main_run (prog :: input_path :: rest) w
          = [.readFile input_path, .createTemp (tmpName w) bytes,
             .detect (tmpName w), .printJson ⟨0, some e⟩, .exitWith 1]))
    ∧ (pyEndsWith input_path ".b64" = false →
      ∀ e, w.detect input_path = .error e →
        main_run (prog :: input_path :: rest) w
          = [.detect input_path, .printJson ⟨0, some e⟩, .exitWith 1]) := by
  constructor
  · intro hb
    refine ⟨?_, ?_, ?_⟩
    · intro e hr
      simp [main_run, hb, hr]
    · intro s e hr hd
      simp [main_run, hb, hr, hd]
    · intro s bytes e hr hd hm
      simp [main_run, hb, hr, hd, hm]
  · intro hb e hm
    simp [main_run, hb, hm]

theorem C3_exceptions_surface_verbatim_witness :
    main_run ["p", "missing.b64"] demoWorld
      = [.readFile "missing.b64",
         .printJson ⟨0, some ("No such file: " ++ "missing.b64")⟩, .exitWith 1]
    ∧ main_run ["p", "missing.jpg"] demoWorld
      = [.detect "missing.jpg",
         .printJson ⟨0, some ("cannot open image: " ++ "missing.jpg")⟩,
         .exitWith 1] :=
  ⟨((C3_exceptions_surface_verbatim "p" "missing.b64" [] demoWorld).1
      (by decide)).1 _ rfl,
   (C3_exceptions_surface_verbatim "p" "missing.jpg" [] demoWorld).2
      (by decide) _ rfl⟩

/-- Claim C4: input resolution is decided by suffix alone.  A path not
ending in `.b64` is passed to inference unchanged (the run starts with
a detector call on the input path itself) and no temporary file and no
file read ever occur; a path ending in `.b64` whose read and decode
succeed is read in full, its decoded bytes are written to the newly
created temporary file, whose name carries the image extension `.png`,
and inference runs on that temporary path. -/
theorem C4_resolution_by_suffix (prog input_path : String)
    (rest : List String) (w : World) :
    (pyEndsWith input_path ".b64" = false →
      (main_run (prog :: input_path :: rest) w).all
          (fun ev => !isCreateTemp ev) = true
      ∧ ∃ t, main_run (prog :: input_path :: rest) w
          = .detect input_path :: t)
    ∧ (pyEndsWith input_path ".b64" = true →
      ∀ s bytes, w.readFile input_path = .ok s → w.b64decode s = .ok bytes →
        tmpName w = w.tmpStem ++ ".png"
        ∧ pyEndsWith (tmpName w) ".png" = true
        ∧ ∃ t, main_run (prog :: input_path :: rest) w
            = .readFile input_path :: .createTemp (tmpName w) bytes
              :: .detect (tmpName w) :: t) := by
  constructor
  · intro hb
    constructor
    · cases hm : w.detect input_path with
      | error e => simp [main_run, hb, hm, isCreateTemp]
      | ok results => simp [main_run, hb, hm, isCreateTemp]
    · cases hm : w.detect input_path with
      | error e =>
          exact ⟨[.printJson ⟨0, some e⟩, .exitWith 1],
            by simp [main_run, hb, hm]⟩
      | ok results =>
          exact ⟨[.printJson ⟨count_people results, none⟩, .exitWith 0],
            by simp [main_run, hb, hm]⟩
  · intro hb s bytes hr hd
    refine ⟨rfl, pyEndsWith_append _ _, ?_⟩
    cases hm : w.detect (tmpName w) with
    | error e =>
        exact ⟨[.printJson ⟨0, some e⟩, .exitWith 1],
          by simp [main_run, hb, hr, hd, hm]⟩
    | ok results =>
        exact ⟨[.deleteTemp (tmpName w),
                .printJson ⟨count_people results, none⟩, .exitWith 0],
          by simp [main_run, hb, hr, hd, hm]⟩

theorem C4_resolution_by_suffix_witness :
    ((main_run ["p", "photo.jpg"] demoWorld).all
        (fun ev => !isCreateTemp ev) = true
      ∧ ∃ t, main_run ["p", "photo.jpg"] demoWorld
          = .detect "photo.jpg" :: t)
    ∧ (tmpName demoWorld = "tmp123" ++ ".png"
      ∧ pyEndsWith (tmpName demoWorld) ".png" = true
      ∧ ∃ t, main_run ["p", "img.b64"] demoWorld
          = .readFile "img.b64"
            :: .createTemp (tmpName demoWorld) [65, 66, 67]
            :: .detect (tmpName demoWorld) :: t) :=
  ⟨(C4_resolution_by_suffix "p" "photo.jpg" [] demoWorld).1 (by decide),
   (C4_resolution_by_suffix "p" "img.b64" [] demoWorld).2 (by decide)
     "QUJD" [65, 66, 67] rfl rfl⟩

/-- Claim C5: in every run — success, processing failure or missing
argument — exactly one JSON object is printed to standard output, and
that object carries both a count field and an error field (it is a
`JsonOut`, which always has both). -/
theorem C5_exactly_one_json (argv : List String) (w : World) :
    ∃ c e, (main_run argv w).filter isPrintJson = [.printJson ⟨c, e⟩] := by
  match argv with
  | [] => exact ⟨0, some "No image path provided", rfl⟩
  | [_a] => exact ⟨0, some "No image path provided", rfl⟩
  | _a :: input_path :: _rest =>
    by_cases hb : pyEndsWith input_path ".b64" = true
    · cases hr : w.readFile input_path with
      | error e =>
          exact ⟨0, some e, by simp [main_run, hb, hr, isPrintJson]⟩
      | ok s =>
        cases hd : w.b64decode s with
        | error e =>
            exact ⟨0, some e, by simp [main_run, hb, hr, hd, isPrintJson]⟩
        | ok bytes =>
          cases hm : w.detect (tmpName w) with
          | error e =>
              exact ⟨0, some e,
                by simp [main_run, hb, hr, hd, hm, isPrintJson]⟩
          | ok results =>
              exact ⟨count_people results, none,
                by simp [main_run, hb, hr, hd, hm, isPrintJson]⟩
    · cases hm : w.detect input_path with
      | error e =>
          exact ⟨0, some e, by simp [main_run, hb, hm, isPrintJson]⟩
      | ok results =>
          exact ⟨count_people results, none,
            by simp [main_run, hb, hm, isPrintJson]⟩

/-- Claim C6: whenever resolution, inference and counting all succeed,
the run prints `{"count": N, "error": null}` with N the counted value
and exits with status 0, on the direct-path branch and on the
base64 branch alike. -/
theorem C6_success_output (prog input_path : String)
    (rest : List String) (w : World) :
    (pyEndsWith input_path ".b64" = false →
      ∀ results, w.detect input_path = .ok results →
        main_run (prog :: input_path :: rest) w
          = [.detect input_path,
             .printJson ⟨count_people results, none⟩, .exitWith 0])
    ∧ (pyEndsWith input_path ".b64" = true →
      ∀ s bytes results, w.readFile input_path = .ok s →
          w.b64decode s = .ok bytes → w.detect (tmpName w) = .ok results →
        main_run (prog :: input_path :: rest) w
          = [.readFile input_path, .createTemp (tmpName w) bytes,
             .detect (tmpName w), .deleteTemp (tmpName w),
             .printJson ⟨count_people results, none⟩, .exitWith 0]) := by
  constructor
  · intro hb results hm
    simp [main_run, hb, hm]
  · intro hb s bytes results hr hd hm
    simp [main_run, hb, hr, hd, hm]

theorem C6_success_output_witness :
    main_run ["p", "photo.jpg"] demoWorld
      = [.detect "photo.jpg",
         .printJson ⟨count_people [⟨[⟨0, 3/5⟩]⟩, ⟨[⟨0, 4/5⟩, ⟨7, 1⟩]⟩],
           none⟩,
         .exitWith 0] :=
  (C6_success_output "p" "photo.jpg" [] demoWorld).1 (by decide) _ rfl

/-- Claim C8: on a `.b64` input whose decode, inference and counting all
succeed, the temporary decoded file is deleted before the result is
printed (the trace is the resolution steps, then the deletion, then the
print and the exit), and no temporary file remains: every temporary
file created in the run is also deleted in it. -/
theorem C8_temp_deleted_on_success (prog input_path : String)
    (rest : List String) (w : World) (s : String) (bytes : List Nat)
    (results : List DetResult)
    (hb : pyEndsWith input_path ".b64" = true)
    (hr : w.readFile input_path = .ok s)
    (hd : w.b64decode s = .ok bytes)
    (hm : w.detect (tmpName w) = .ok results) :
    main_run (prog :: input_path :: rest) w
      = [.readFile input_path, .createTemp (tmpName w) bytes,
         .detect (tmpName w)]
        ++ .deleteTemp (tmpName w)
          :: [.printJson ⟨count_people results, none⟩, .exitWith 0]
    ∧ (∀ n c, Event.createTemp n c ∈ main_run (prog :: input_path :: rest) w →
        Event.deleteTemp n ∈ main_run (prog :: input_path :: rest) w) := by
  have ht : main_run (prog :: input_path :: rest) w
      = [.readFile input_path, .createTemp (tmpName w) bytes,
         .detect (tmpName w), .deleteTemp (tmpName w),
         .printJson ⟨count_people results, none⟩, .exitWith 0] := by
    simp [main_run, hb, hr, hd, hm]
  constructor
  · rw [ht]
    rfl
  · intro n c hmem
    rw [ht] at hmem ⊢
    simp only [List.mem_cons, List.not_mem_nil, or_false] at hmem
    rcases hmem with h | h | h | h | h | h
    all_goals try cases h
    all_goals simp

theorem C8_temp_deleted_on_success_witness :
    main_run ["p", "img.b64"] demoWorld
      = [.readFile "img.b64",
         .createTemp (tmpName demoWorld) [65, 66, 67],
         .detect (tmpName demoWorld)]
        ++ .deleteTemp (tmpName demoWorld)
          :: [.printJson
                ⟨count_people [⟨[⟨0, 9/10⟩, ⟨0, 1/2⟩, ⟨2, 3/4⟩]⟩], none⟩,
              .exitWith 0] :=
  (C8_temp_deleted_on_success "p" "img.b64" [] demoWorld "QUJD" [65, 66, 67]
    [⟨[⟨0, 9/10⟩, ⟨0, 1/2⟩, ⟨2, 3/4⟩]⟩] (by decide) rfl rfl rfl).1
